import Mathlib

/-!
Shallow embedding of `src/script.py` (ton_checker): an hourly sampler that
fetches a TON price (CoinMarketCap) and a DEX volume figure (DefiLlama),
appends one row to a local CSV log, and optionally mirrors the last row to a
GCS object.  Python machine state (file content, HTTP outcomes, environment
variables) is passed explicitly; numeric values are modelled as rationals
(Python floats restricted to their exact decimal readings); fallible Python
code is modelled with `Except Unit`.
-/

namespace TonChecker

/-- A Python `datetime.datetime` value: calendar fields down to microseconds.
Only the fields that `truncate_to_hour` (script.py line 16-18) touches are
relevant; no arithmetic on datetimes occurs in the script. -/
structure Datetime where
  year : Nat
  month : Nat
  day : Nat
  hour : Nat
  minute : Nat
  second : Nat
  microsecond : Nat
deriving DecidableEq, Repr

/-- script.py line 16-18: `dt.replace(minute=0, second=0, microsecond=0)`. -/
def truncate_to_hour (dt : Datetime) : Datetime :=
  { dt with minute := 0, second := 0, microsecond := 0 }

/-- The ASCII whitespace characters stripped by Python `str.strip()` with no
argument (the model is restricted to ASCII; Python additionally strips
Unicode whitespace, which never occurs in this script's data). -/
def pyIsSpace (c : Char) : Bool :=
  c = ' ' ∨ c = '\t' ∨ c = '\n' ∨ c = '\r' ∨ c = '\x0b' ∨ c = '\x0c'

/-- Python truthiness of `s.strip()`: `s.strip()` is falsy iff every character
of `s` is whitespace. -/
def isBlank (s : String) : Bool :=
  s.data.all pyIsSpace

/-- Worker for `splitlines`: walks the characters, accumulating the current
line (reversed) in `acc`; recognises `\r\n`, `\r` and `\n` as terminators,
dropping them, exactly like Python `str.splitlines()` on ASCII input (the
model omits Python's exotic separators `\v \f \x1c-\x1e \x85    `,
which never occur in this script's data). -/
def splitlinesAux : List Char → List Char → List String
  | [], acc => if acc.isEmpty then [] else [String.mk acc.reverse]
  | '\r' :: '\n' :: rest, acc => String.mk acc.reverse :: splitlinesAux rest []
  | '\r' :: rest, acc => String.mk acc.reverse :: splitlinesAux rest []
  | '\n' :: rest, acc => String.mk acc.reverse :: splitlinesAux rest []
  | c :: rest, acc => splitlinesAux rest (c :: acc)

/-- Python `s.splitlines()` (keepends = False). -/
def splitlines (s : String) : List String :=
  splitlinesAux s.data []

/-- Python `s.rstrip("\n")`: drop trailing `'\n'` characters only. -/
def rstripLF (s : String) : String :=
  String.mk (s.data.reverse.dropWhile (fun c => c = '\n')).reverse

/-- Python `s.strip()` (both ends, default whitespace, ASCII model). -/
def pyStripStr (s : String) : String :=
  String.mk (((s.data.dropWhile pyIsSpace).reverse.dropWhile pyIsSpace).reverse)

/-- Numeric value of a list of decimal digit characters. -/
def digitsVal (cs : List Char) : Nat :=
  cs.foldl (fun a c => a * 10 + (c.toNat - 48)) 0

/-- Exponent part of a Python float literal: optional sign then digits. -/
def parseExpPart : List Char → Option Int
  | [] => none
  | '+' :: cs => if cs ≠ [] ∧ cs.all Char.isDigit then some (digitsVal cs) else none
  | '-' :: cs => if cs ≠ [] ∧ cs.all Char.isDigit then some (-(digitsVal cs : Int)) else none
  | cs => if cs.all Char.isDigit then some ((digitsVal cs : Int)) else none

/-- Mantissa of a Python float literal: `digits [. digits]` with at least one
digit present on either side of the point. -/
def parseMantissa (cs : List Char) : Option ℚ :=
  let intPart := cs.takeWhile Char.isDigit
  match cs.dropWhile Char.isDigit with
  | [] => if intPart = [] then none else some ((digitsVal intPart : ℚ))
  | '.' :: fr =>
      if fr.all Char.isDigit ∧ (intPart ≠ [] ∨ fr ≠ []) then
        some ((digitsVal intPart : ℚ) + (digitsVal fr : ℚ) / ((10 : ℚ) ^ fr.length))
      else none
  | _ => none

/-- Python `float(s)` on a string, modelled for ordinary decimal literals
(optional surrounding whitespace, optional sign, optional fraction and
exponent) and returning the exact rational value.  The special forms `inf`,
`nan`, hex floats and underscore separators are outside the model; the script
only ever applies `float` to JSON-decoded numbers in practice. -/
def parseFloatStr (s : String) : Option ℚ :=
  let cs := (pyStripStr s).data
  let signed : ℚ × List Char :=
    match cs with
    | '+' :: r => (1, r)
    | '-' :: r => (-1, r)
    | r => (1, r)
  let mant := signed.2.takeWhile (fun c => c ≠ 'e' ∧ c ≠ 'E')
  let expChars := signed.2.dropWhile (fun c => c ≠ 'e' ∧ c ≠ 'E')
  let expVal : Option Int :=
    match expChars with
    | [] => some 0
    | _ :: r => parseExpPart r
  match parseMantissa mant, expVal with
  | some m, some ex => some (signed.1 * m * (10 : ℚ) ^ ex)
  | _, _ => none

/-- Quoting of one field by Python's `csv.writer` (QUOTE_MINIMAL, default
dialect): a field containing the delimiter, the quote character or a line
break is wrapped in double quotes with inner quotes doubled. -/
def csvQuoteField (s : String) : String :=
  if s.data.any (fun c => c = ',' ∨ c = '"' ∨ c = '\r' ∨ c = '\n') then
    "\"" ++ String.mk (s.data.foldr
      (fun c acc => if c = '"' then '"' :: '"' :: acc else c :: acc) []) ++ "\""
  else s

/-- Python `csv.writer(f).writerow(fields)` for string fields: fields joined
by `,` followed by the default `\r\n` line terminator (the file is opened
with `newline=""`, so the terminator reaches the file untranslated). -/
def csv_writerow (fields : List String) : String :=
  String.intercalate "," (fields.map csvQuoteField) ++ "\r\n"

/-- The header fields written by `ensure_csv_exists` (script.py lines 26-35). -/
def headerFields : List String :=
  ["hour", "timestamp", "ton_price", "ton_price_received_at",
   "volume_usd_float", "volume_usd_received_at"]

/-- The header line as it appears in the file (without the line terminator). -/
def headerLine : String :=
  "hour,timestamp,ton_price,ton_price_received_at,volume_usd_float,volume_usd_received_at"

/-- script.py lines 21-35: create the CSV file with the header row if it does
not exist; otherwise leave it untouched.  The file is modelled as
`Option String` (`none` = path does not exist). -/
def ensure_csv_exists : Option String → Option String
  | some content => some content
  | none => some (csv_writerow headerFields)

/-- JSON values, as decoded by `response.json()`.  Numbers are modelled as
rationals (exact readings of JSON numerals). -/
inductive Json where
  | null
  | bool (b : Bool)
  | num (q : ℚ)
  | str (s : String)
  | arr (elems : List Json)
  | obj (fields : List (String × Json))

/-- Python `d.get(k, default)`: raises (AttributeError) unless `d` is a dict. -/
def pyDictGetD : Json → String → Json → Except Unit Json
  | .obj fs, k, d => .ok ((fs.lookup k).getD d)
  | _, _, _ => .error ()

/-- Python `d.get(k)`: `none` models Python `None` for a missing key; raises
unless `d` is a dict. -/
def pyDictGet : Json → String → Except Unit (Option Json)
  | .obj fs, k => .ok (fs.lookup k)
  | _, _ => .error ()

/-- Python `d[k]`: raises KeyError on a missing key and TypeError on a
non-dict value. -/
def pyIndex : Json → String → Except Unit Json
  | .obj fs, k => match fs.lookup k with
      | some v => .ok v
      | none => .error ()
  | _, _ => .error ()

/-- Python `float(x)` on a JSON-decoded value: numbers pass through, bools
coerce (`float(True) = 1.0`), numeric strings parse, everything else raises. -/
def pyFloat : Json → Except Unit ℚ
  | .num q => .ok q
  | .bool b => .ok (if b then 1 else 0)
  | .str s => match parseFloatStr s with
      | some q => .ok q
      | none => .error ()
  | _ => .error ()

/-- script.py line 63: Python `error_code in (0, "0")` where `error_code` is
`status.get("error_code")` (so possibly `None`).  Python `==` makes
`0 == 0.0 == False` all hold, hence the `bool false` case. -/
def errorCodeInZeroSet : Option Json → Bool
  | some (.num q) => q = 0
  | some (.str s) => s = "0"
  | some (.bool b) => !b
  | _ => false

/-- Outcome of one `requests.get` call: either the transport raises, or a
response arrives with an HTTP status code and a body whose JSON decoding may
itself fail (`response.json()` raising on a malformed body). -/
inductive FetchOutcome where
  | exn
  | resp (status : Nat) (body : Except Unit Json)

/-- `response.raise_for_status()`: raises HTTPError exactly for client and
server error codes (400-599). -/
def raise_for_status (status : Nat) : Except Unit Unit :=
  if 400 ≤ status ∧ status < 600 then .error () else .ok ()

/-- script.py lines 60-61: `data.get("status", {}).get("error_code")`
(written as two statements in the source). -/
def cmc_error_code (data : Json) : Except Unit (Option Json) := do
  let status ← pyDictGetD data "status" (Json.obj [])
  pyDictGet status "error_code"

/-- script.py line 67, the navigation `data["data"]["TON"]["quote"]["USD"]["price"]`. -/
def cmc_price_field (data : Json) : Except Unit Json := do
  let p1 ← pyIndex data "data"
  let p2 ← pyIndex p1 "TON"
  let p3 ← pyIndex p2 "quote"
  let p4 ← pyIndex p3 "USD"
  pyIndex p4 "price"

/-- The `try` block of `fetch_ton_price` (script.py lines 55-70): any `.error`
is an exception reaching the `except` handler.  `ended_at` stands for the
`datetime.now()` taken on line 68 after a successful parse. -/
def fetch_ton_price_try (ended_at : Datetime) : FetchOutcome → Except Unit (ℚ × Datetime)
  | .exn => .error ()
  | .resp status body => do
    raise_for_status status
    let data ← body
    let error_code ← cmc_error_code data
    if errorCodeInZeroSet error_code then
      let p ← cmc_price_field data
      let price ← pyFloat p
      pure (price, ended_at)
    else
      .error ()

/-- script.py lines 37-73: `fetch_ton_price`.  Returns
`(price, ended_at)` on success and `(none, started_at)` when the `try` block
raises for any reason. -/
def fetch_ton_price (started_at ended_at : Datetime) (o : FetchOutcome) :
    Option ℚ × Datetime :=
  match fetch_ton_price_try ended_at o with
  | .ok (price, t) => (some price, t)
  | .error _ => (none, started_at)

/-- The `try` block of `fetch_dex_volume_llama` (script.py lines 114-122):
`float(data['totalAllTime'])`. -/
def fetch_dex_volume_llama_try (ended_at : Datetime) : FetchOutcome → Except Unit (ℚ × Datetime)
  | .exn => .error ()
  | .resp status body => do
    raise_for_status status
    let data ← body
    let tot ← pyIndex data "totalAllTime"
    let volume_float ← pyFloat tot
    pure (volume_float, ended_at)

/-- script.py lines 103-125: `fetch_dex_volume_llama`.  Returns
`(volume, ended_at)` on success and `(none, started_at)` on any failure. -/
def fetch_dex_volume_llama (started_at ended_at : Datetime) (o : FetchOutcome) :
    Option ℚ × Datetime :=
  match fetch_dex_volume_llama_try ended_at o with
  | .ok (v, t) => (some v, t)
  | .error _ => (none, started_at)

/-- script.py line 11: `os.getenv("CMC_API_KEY", "123")` — the environment
variable's value, defaulting to `"123"` when unset. -/
def CMC_API_KEY (env : Option String) : String :=
  env.getD "123"

/-- Externally visible steps of `main`, in program order, used to record what
runs before what (in particular that nothing runs after a credential abort). -/
inductive Event where
  | ensureCsv
  | fetchPrice
  | fetchVolume
  | appendRow
deriving DecidableEq, Repr

/-- One cell of the appended row: an isoformatted timestamp, a float, or
Python `None` (which `csv.writer` renders as an empty field).  The textual
serialization of timestamps and floats is not modelled — no claim depends
on it. -/
inductive Cell where
  | time (dt : Datetime)
  | num (q : ℚ)
  | absent
deriving DecidableEq, Repr

/-- A nullable float cell, as placed in the row by `main`. -/
def cellOfPrice : Option ℚ → Cell
  | some q => .num q
  | none => .absent

/-- script.py lines 129-163: `main`.  Inputs are the ambient state the Python
code reads: the environment variable, the local CSV file, `datetime.now()`
values, and the two HTTP outcomes.  Returns the ordered list of externally
visible steps performed, together with either the abort message
(`raise SystemExit(msg)`, which terminates the process with a non-zero exit
status) or the CSV state after `ensure_csv_exists` paired with the appended
row. -/
def main (envKey : Option String) (file : Option String)
    (now priceEnd volumeEnd : Datetime) (po vo : FetchOutcome) :
    List Event × Except String (Option String × List Cell) :=
  let key := CMC_API_KEY envKey
  if key.isEmpty || key == "123" then
    ([], .error "Set your CoinMarketCap API key in the CMC_API_KEY environment variable.")
  else
    let file1 := ensure_csv_exists file
    let timestamp_hour := truncate_to_hour now
    let priceRes := fetch_ton_price now priceEnd po
    let volumeRes := fetch_dex_volume_llama now volumeEnd vo
    let row : List Cell :=
      [.time timestamp_hour, .time now, cellOfPrice priceRes.1,
       .time priceRes.2, cellOfPrice volumeRes.1, .time volumeRes.2]
    ([.ensureCsv, .fetchPrice, .fetchVolume, .appendRow], .ok (file1, row))

/-- What `upload_last_row_to_gcs` does to the remote object:
`noRemote` = the function returned before the storage client was even
created (no remote read, no remote write); `skipDuplicate` = the object was
read but nothing was written; `write c` = the object was overwritten with
content `c`. -/
inductive SyncResult where
  | noRemote
  | skipDuplicate
  | write (content : String)
deriving DecidableEq, Repr

/-- Whether a sync outcome wrote to the remote object. -/
def SyncResult.wrote : SyncResult → Bool
  | .write _ => true
  | _ => false

/-- script.py line 202: the non-blank lines of the local CSV,
`[line for line in f.read().splitlines() if line.strip()]`. -/
def localLines (text : String) : List String :=
  (splitlines text).filter (fun l => !(isBlank l))

/-- script.py lines 186-234: `upload_last_row_to_gcs`.  The local file is
`Option String` (`none` = missing); `download` is the outcome of
`blob.download_as_text()` (`.error ()` = the blob is absent or the read
raised).  The import guard (lines 191-195) is assumed satisfied — it precedes
everything modelled here and also produces no remote access.  The length
guard (line 204) makes `lines` nonempty wherever `lines[0]` / `lines[-1]`
are taken, so `headI` / `getLastD ""` are exact models of them. -/
def upload_last_row_to_gcs (local_csv : Option String)
    (download : Except Unit String) : SyncResult :=
  match local_csv with
  | none => .noRemote
  | some text =>
    let lines := localLines text
    if lines.length < 2 then .noRemote
    else
      let header_line := lines.headI
      let last_line := lines.getLastD ""
      match download with
      | .error _ => .write (header_line ++ "\n" ++ last_line ++ "\n")
      | .ok existing_text =>
        if isBlank existing_text then
          .write (header_line ++ "\n" ++ last_line ++ "\n")
        else if last_line ∈ splitlines existing_text then
          .skipDuplicate
        else
          .write (rstripLF existing_text ++ "\n" ++ last_line ++ "\n")

/-! Helper lemmas shared by the claim theorems. -/

/-- Every character of every line produced by `splitlinesAux` comes from the
remaining input or the accumulator. -/
theorem splitlinesAux_chars : ∀ (l acc : List Char) (s : String),
    s ∈ splitlinesAux l acc → ∀ c ∈ s.data, c ∈ l ∨ c ∈ acc := by
  intro l acc
  induction l, acc using splitlinesAux.induct with
  | case1 acc hacc =>
    intro s hs c hc
    simp [splitlinesAux, hacc] at hs
  | case2 acc hacc =>
    intro s hs c hc
    simp [splitlinesAux, hacc] at hs
    subst hs
    right
    exact List.mem_reverse.mp hc
  | case3 rest acc ih =>
    intro s hs c hc
    simp only [splitlinesAux, List.mem_cons] at hs
    rcases hs with rfl | hs
    · right; exact List.mem_reverse.mp hc
    · rcases ih s hs c hc with h | h
      · left; exact List.mem_cons_of_mem _ (List.mem_cons_of_mem _ h)
      · simp at h
  | case4 rest acc hne ih =>
    intro s hs c hc
    simp only [splitlinesAux, List.mem_cons] at hs
    rcases hs with rfl | hs
    · right; exact List.mem_reverse.mp hc
    · rcases ih s hs c hc with h | h
      · left; exact List.mem_cons_of_mem _ h
      · simp at h
  | case5 rest acc ih =>
    intro s hs c hc
    simp only [splitlinesAux, List.mem_cons] at hs
    rcases hs with rfl | hs
    · right; exact List.mem_reverse.mp hc
    · rcases ih s hs c hc with h | h
      · left; exact List.mem_cons_of_mem _ h
      · simp at h
  | case6 d rest acc h1 h2 h3 ih =>
    intro s hs c hc
    rw [splitlinesAux.eq_5 acc d rest h1 h2 h3] at hs
    rcases ih s hs c hc with h | h
    · left; exact List.mem_cons_of_mem _ h
    · simp only [List.mem_cons] at h
      rcases h with rfl | h
      · left; exact List.mem_cons_self _ _
      · right; exact h

/-- A line split out of an all-whitespace string is itself all-whitespace. -/
theorem mem_splitlines_blank (t s : String) (ht : isBlank t = true)
    (hs : s ∈ splitlines t) : isBlank s = true := by
  rw [isBlank, List.all_eq_true]
  intro c hc
  rcases splitlinesAux_chars t.data [] s hs c hc with h | h
  · exact List.all_eq_true.mp ht c h
  · simp at h

/-- `getLastD` of a nonempty list is a member of the list. -/
theorem getLastD_mem : ∀ (l : List String) (d : String), l ≠ [] → l.getLastD d ∈ l := by
  intro l
  induction l with
  | nil => intro d h; exact absurd rfl h
  | cons a t ih =>
    intro d _
    cases t with
    | nil => simp [List.getLastD]
    | cons b u =>
      rw [List.getLastD_cons]
      exact List.mem_cons_of_mem a (ih a (by simp))

/-! Claim theorems. -/

/-- Claim C9: the hour bucket of any datetime zeroes the minute, second and
microsecond components and preserves the calendar day and the hour; in
particular 14:37:52.123 maps to 14:00:00.000 of the same day. -/
theorem truncate_to_hour_zeroes_subhour (dt : Datetime) :
    (truncate_to_hour dt).year = dt.year ∧
    (truncate_to_hour dt).month = dt.month ∧
    (truncate_to_hour dt).day = dt.day ∧
    (truncate_to_hour dt).hour = dt.hour ∧
    (truncate_to_hour dt).minute = 0 ∧
    (truncate_to_hour dt).second = 0 ∧
    (truncate_to_hour dt).microsecond = 0 ∧
    truncate_to_hour ⟨2026, 10, 12, 14, 37, 52, 123000⟩ = ⟨2026, 10, 12, 14, 0, 0, 0⟩ :=
  ⟨rfl, rfl, rfl, rfl, rfl, rfl, rfl, rfl⟩

/-- Claim C2, counterexample: the header row actually written on
initialization is not the spec string
`hour, timestamp, ton_price, ...` — `csv.writer` joins the fields with a bare
comma, without the spaces the spec shows. -/
theorem header_spaced_string_refuted :
    ¬ ((splitlines ((ensure_csv_exists none).getD "")).headI =
      "hour, timestamp, ton_price, ton_price_received_at, volume_usd_float, volume_usd_received_at") := by
  decide

/-- Claim C2, amended: the header row written to every file the log store
initializes is exactly
`hour,timestamp,ton_price,ton_price_received_at,volume_usd_float,volume_usd_received_at`
(comma separators without spaces, `\r\n` line terminator). -/
theorem header_row_exact :
    ensure_csv_exists none = some (headerLine ++ "\r\n") ∧
    splitlines (headerLine ++ "\r\n") = [headerLine] ∧
    headerLine =
      "hour,timestamp,ton_price,ton_price_received_at,volume_usd_float,volume_usd_received_at" := by
  refine ⟨by decide, by decide, rfl⟩

/-- Claim C6: `ensure_csv_exists` is idempotent — starting from a missing
file, any `N ≥ 1` calls yield a file whose content has exactly one line equal
to the header, and a call on an existing file leaves its content unchanged. -/
theorem ensure_csv_exists_idempotent (n : Nat) (h : 1 ≤ n) (c : String) :
    ensure_csv_exists^[n] none = some (headerLine ++ "\r\n") ∧
    ((splitlines (headerLine ++ "\r\n")).filter (fun l => l == headerLine)).length = 1 ∧
    ensure_csv_exists (some c) = some c := by
  refine ⟨?_, by decide, rfl⟩
  obtain ⟨m, rfl⟩ := Nat.exists_eq_add_of_le h
  clear h
  induction m with
  | zero =>
    show ensure_csv_exists^[1] none = _
    rw [Function.iterate_one]
    decide
  | succ k ih =>
    have hidx : 1 + (k + 1) = (1 + k) + 1 := by omega
    rw [hidx, Function.iterate_succ_apply', ih]
    rfl

/-- Witness for C6 at `n = 3`. -/
theorem ensure_csv_exists_idempotent_witness :
    ensure_csv_exists^[3] none = some (headerLine ++ "\r\n") ∧
    ((splitlines (headerLine ++ "\r\n")).filter (fun l => l == headerLine)).length = 1 ∧
    ensure_csv_exists (some "existing content") = some "existing content" :=
  ensure_csv_exists_idempotent 3 (by decide) "existing content"

/-- Claim C10: when the local CSV file does not exist, `upload_last_row_to_gcs`
returns before the storage client is created, whatever the remote state: no
remote read, no remote write. -/
theorem sync_missing_local_is_noop (d : Except Unit String) :
    upload_last_row_to_gcs none d = .noRemote :=
  rfl

/-- Claim C8: when the local CSV has fewer than 2 non-blank lines,
`upload_last_row_to_gcs` returns before the storage client is created,
whatever the remote state: no remote read, no remote write. -/
theorem sync_few_lines_is_noop (text : String) (d : Except Unit String)
    (h : (localLines text).length < 2) :
    upload_last_row_to_gcs (some text) d = .noRemote := by
  simp only [upload_last_row_to_gcs]
  rw [if_pos h]

/-- Witness for C8: a file holding only the header line. -/
theorem sync_few_lines_is_noop_witness :
    upload_last_row_to_gcs (some (headerLine ++ "\r\n")) (.ok "remote stuff") = .noRemote :=
  sync_few_lines_is_noop (headerLine ++ "\r\n") (.ok "remote stuff") (by decide)

/-- Claim C5: when the remote read raises (object absent or transient
failure) or the remote text is blank, and the local file has at least two
non-blank lines, `upload_last_row_to_gcs` overwrites the remote object with
exactly the local header line followed by the local last line — both failure
modes are handled identically to genuine absence, replacing whatever content
may exist. -/
theorem sync_fresh_content_on_absent_or_failed_read (text t : String)
    (d : Except Unit String)
    (hlen : 2 ≤ (localLines text).length)
    (hd : d = .error () ∨ (d = .ok t ∧ isBlank t = true)) :
    upload_last_row_to_gcs (some text) d =
      .write ((localLines text).headI ++ "\n" ++ (localLines text).getLastD "" ++ "\n") := by
  have hnot : ¬ (localLines text).length < 2 := by omega
  rcases hd with rfl | ⟨rfl, hb⟩
  · simp only [upload_last_row_to_gcs]
    rw [if_neg hnot]
  · simp only [upload_last_row_to_gcs]
    rw [if_neg hnot]
    simp [hb]

set_option maxRecDepth 4000 in
/-- Witness for C5: header + one data row, absent remote object. -/
theorem sync_fresh_content_witness :
    upload_last_row_to_gcs (some (headerLine ++ "\r\n" ++ "row1\r\n")) (.error ()) =
      .write (headerLine ++ "\n" ++ "row1" ++ "\n") := by
  have h := sync_fresh_content_on_absent_or_failed_read
    (headerLine ++ "\r\n" ++ "row1\r\n") "" (.error ()) (by decide) (Or.inl rfl)
  rw [h]
  decide

/-- Claim C4: remote-sync idempotence — if the last non-blank local line
already appears verbatim among the lines of the remote object's text, the
sync performs zero remote writes. -/
theorem sync_duplicate_performs_no_write (text t : String)
    (hmem : (localLines text).getLastD "" ∈ splitlines t) :
    (upload_last_row_to_gcs (some text) (.ok t)).wrote = false := by
  simp only [upload_last_row_to_gcs]
  by_cases hlt : (localLines text).length < 2
  · rw [if_pos hlt]
    rfl
  · rw [if_neg hlt]
    have hne : localLines text ≠ [] := by
      intro h0
      rw [h0] at hlt
      simp at hlt
    have hlast : (localLines text).getLastD "" ∈ localLines text :=
      getLastD_mem _ _ hne
    have hnb : isBlank ((localLines text).getLastD "") = false := by
      have hf := (List.mem_filter.mp hlast).2
      simpa using hf
    have htb : isBlank t = false := by
      cases hb : isBlank t with
      | false => rfl
      | true =>
        have := mem_splitlines_blank t _ hb hmem
        rw [hnb] at this
        exact Bool.noConfusion this
    simp only [htb]
    rw [if_neg Bool.false_ne_true, if_pos hmem]
    rfl

/-- Witness for C4: the local last row already present in the remote text. -/
theorem sync_duplicate_performs_no_write_witness :
    (upload_last_row_to_gcs (some "h\nrow1\n") (.ok "h\nrow1\n")).wrote = false :=
  sync_duplicate_performs_no_write "h\nrow1\n" "h\nrow1\n" (by decide)

/-- Claim C1: whenever the `try` body of either fetcher raises — transport
exception, 4xx/5xx status, malformed JSON body, API-reported error code,
missing or non-numeric field — the fetcher returns `(none, started_at)`; it
never propagates the exception (in the embedding each fetcher is a total
function into result pairs, so the only observable failure behavior is this
return value). -/
theorem fetch_failure_returns_absent_and_start (s e : Datetime)
    (o1 o2 : FetchOutcome)
    (h1 : fetch_ton_price_try e o1 = .error ())
    (h2 : fetch_dex_volume_llama_try e o2 = .error ()) :
    fetch_ton_price s e o1 = (none, s) ∧
    fetch_dex_volume_llama s e o2 = (none, s) := by
  constructor
  · simp only [fetch_ton_price]
    rw [h1]
  · simp only [fetch_dex_volume_llama]
    rw [h2]

/-- Witness for C1: a transport exception for the price fetcher and a 500
status for the volume fetcher. -/
theorem fetch_failure_returns_absent_and_start_witness :
    fetch_ton_price ⟨2026, 1, 1, 14, 0, 0, 0⟩ ⟨2026, 1, 1, 14, 0, 5, 0⟩ .exn =
      (none, ⟨2026, 1, 1, 14, 0, 0, 0⟩) ∧
    fetch_dex_volume_llama ⟨2026, 1, 1, 14, 0, 0, 0⟩ ⟨2026, 1, 1, 14, 0, 5, 0⟩
        (.resp 500 (.ok .null)) =
      (none, ⟨2026, 1, 1, 14, 0, 0, 0⟩) :=
  fetch_failure_returns_absent_and_start _ _ _ _ rfl rfl

/-- Claim C3: for a successfully delivered and parsed price response, if the
envelope error code passes the zero check and the nested
`data.TON.quote.USD.price` field is the number `q`, the fetch returns
`(some q, ended_at)` (the numeric field coerced by `float` is the field
itself); if the error code fails the zero check, the fetch is a failure and
returns `(none, started_at)`. -/
theorem cmc_price_contract (s e : Datetime) (st : Nat) (data : Json)
    (code : Option Json) (q : ℚ)
    (hst : raise_for_status st = .ok ())
    (hcode : cmc_error_code data = .ok code) :
    (errorCodeInZeroSet code = true → cmc_price_field data = .ok (.num q) →
      fetch_ton_price s e (.resp st (.ok data)) = (some q, e)) ∧
    (errorCodeInZeroSet code = false →
      fetch_ton_price s e (.resp st (.ok data)) = (none, s)) := by
  constructor
  · intro hok hfield
    simp only [fetch_ton_price, fetch_ton_price_try]
    simp [hst, hcode, hok, hfield, pyFloat, Bind.bind, Except.bind,
      Functor.map, Except.map, Pure.pure, Except.pure]
  · intro hbad
    simp only [fetch_ton_price, fetch_ton_price_try]
    simp [hst, hcode, hbad, Bind.bind, Except.bind]

/-- Witness for C3: a well-formed envelope with error code 0 and price 5,
and one with error code 400. -/
theorem cmc_price_contract_witness :
    fetch_ton_price ⟨2026, 1, 1, 14, 0, 0, 0⟩ ⟨2026, 1, 1, 14, 0, 5, 0⟩
        (.resp 200 (.ok (.obj [("status", .obj [("error_code", .num 0)]),
          ("data", .obj [("TON", .obj [("quote",
            .obj [("USD", .obj [("price", .num 5)])])])])]))) =
      (some 5, ⟨2026, 1, 1, 14, 0, 5, 0⟩) ∧
    fetch_ton_price ⟨2026, 1, 1, 14, 0, 0, 0⟩ ⟨2026, 1, 1, 14, 0, 5, 0⟩
        (.resp 200 (.ok (.obj [("status", .obj [("error_code", .num 400)])]))) =
      (none, ⟨2026, 1, 1, 14, 0, 0, 0⟩) := by
  constructor
  · exact (cmc_price_contract _ _ 200
      (.obj [("status", .obj [("error_code", .num 0)]),
        ("data", .obj [("TON", .obj [("quote",
          .obj [("USD", .obj [("price", .num 5)])])])])])
      (some (.num 0)) 5 rfl rfl).1 (by decide) rfl
  · exact (cmc_price_contract _ _ 200
      (.obj [("status", .obj [("error_code", .num 400)])])
      (some (.num 400)) 0 rfl rfl).2 (by decide)

/-- Claim C7: with the credential unset (so `os.getenv` yields the default
`"123"`) or explicitly left at the default, `main` aborts at once with the
`SystemExit` message (a non-zero process exit) and performs none of its
steps — the empty event trace shows neither fetcher ran and no request was
issued. -/
theorem missing_credential_aborts (envKey : Option String)
    (file : Option String) (now pe ve : Datetime) (po vo : FetchOutcome)
    (h : envKey = none ∨ envKey = some "123") :
    main envKey file now pe ve po vo =
      ([], .error "Set your CoinMarketCap API key in the CMC_API_KEY environment variable.") := by
  rcases h with rfl | rfl
  · rfl
  · rfl

/-- Witness for C7: the credential left at its default. -/
theorem missing_credential_aborts_witness :
    main (some "123") none ⟨2026, 1, 1, 14, 0, 0, 0⟩ ⟨2026, 1, 1, 14, 0, 1, 0⟩
        ⟨2026, 1, 1, 14, 0, 2, 0⟩ .exn .exn =
      ([], .error "Set your CoinMarketCap API key in the CMC_API_KEY environment variable.") :=
  missing_credential_aborts _ _ _ _ _ _ _ (Or.inr rfl)

end TonChecker
